import Mathlib

/-!
Verification of the request-routing and dispatch engine of `mirage-playwright`
(`src/playwright-config.ts`) against its natural-language specification.

Strings are modelled as Lean `String`s; the string-manipulating parts of the
code work on the underlying `List Char` (`String.data`), which matches
JavaScript's character-indexed string operations for the ASCII inputs the
routing engine deals with.
-/

set_option autoImplicit false

/-! ### JavaScript string helpers used by `_getFullPath` -/

/-- JS `path[0] === "/" ? path.slice(1) : path` (line 348). -/
def jsStripLead (l : List Char) : List Char :=
  match l with
  | [] => []
  | c :: rest => if c == '/' then rest else c :: rest

/-- JS whitespace for `String.prototype.trim`. -/
def isJsWhitespace (c : Char) : Bool :=
  c == ' ' || c == '\t' || c == '\n' || c == '\r'

/-- JS `String.prototype.trim` on the character list. -/
def jsTrimD (l : List Char) : List Char :=
  ((l.dropWhile isJsWhitespace).reverse.dropWhile isJsWhitespace).reverse

/-- The characters of `"http://"`. -/
def httpChars : List Char := ['h', 't', 't', 'p', ':', '/', '/']

/-- The characters of `"https://"`. -/
def httpsChars : List Char := ['h', 't', 't', 'p', 's', ':', '/', '/']

/-- JS `/^https?:\/\//.test(s)` (lines 427 and 449). -/
def startsHttp (l : List Char) : Bool :=
  httpChars.isPrefixOf l || httpsChars.isPrefixOf l

/-- JS `s.replace(/\/+/g, "/")` (line 451): collapse every run of `/` into one. -/
def collapseSlashes : List Char → List Char
  | [] => []
  | [c] => [c]
  | c1 :: c2 :: rest =>
    if c1 == '/' && c2 == '/' then collapseSlashes (c2 :: rest)
    else c1 :: collapseSlashes (c2 :: rest)

/-! ### Composer configuration (`urlPrefix` / `namespace` fields) -/

/-- The two composer fields of `PlaywrightConfig`. Both are optional string
class fields (`urlPrefix?: string`, `namespace?: string`); `none` models the
JS `undefined`. The TS field `namespace` is a Lean keyword, hence `nmspace`. -/
structure ComposerConfig where
  urlPrefix : Option String := none
  nmspace : Option String := none

/-- JS truthiness of an optional string: `undefined` and `""` are falsy. -/
def truthyStr : Option String → Bool
  | none => false
  | some s => !(s == "")

/-- Model of `_getFullPath` (lines 347-456), a pure function of the composer
configuration and the route path. -/
def getFullPath (cfg : ComposerConfig) (path0 : String) : String :=
  -- line 348: strip a single leading slash
  let pathD : List Char := jsStripLead path0.data
  -- line 350: `this.urlPrefix ? this.urlPrefix.trim() : ""`
  let urlPrefixD : List Char :=
    if truthyStr cfg.urlPrefix then jsTrimD (cfg.urlPrefix.getD "").data else []
  let nsRaw : List Char := (cfg.nmspace.getD "").data
  -- lines 353-424: normalize the namespace
  let namespaceD : List Char :=
    if truthyStr cfg.urlPrefix && truthyStr cfg.nmspace then
      -- lines 354-384: urlPrefix and namespace both set — strip both slashes
      if nsRaw.head? == some '/' && nsRaw.getLast? == some '/' then
        (nsRaw.dropLast).drop 1
      else if nsRaw.head? == some '/' then nsRaw.drop 1
      else if nsRaw.getLast? == some '/' then nsRaw.dropLast
      else nsRaw
    else if truthyStr cfg.nmspace && !truthyStr cfg.urlPrefix then
      -- lines 387-419: namespace without urlPrefix — keep one leading slash
      if nsRaw.head? == some '/' && nsRaw.getLast? == some '/' then nsRaw.dropLast
      else if nsRaw.head? == some '/' then nsRaw
      else if nsRaw.getLast? == some '/' then '/' :: nsRaw.dropLast
      else '/' :: nsRaw
    else
      -- lines 422-424: no namespace
      []
  -- line 427: a fully-qualified path ignores urlPrefix and namespace
  if startsHttp pathD then ⟨pathD⟩
  else
    -- lines 431-434: urlPrefix with exactly one trailing slash
    let fp1 : List Char :=
      if urlPrefixD.length != 0 then
        if urlPrefixD.getLast? == some '/' then urlPrefixD else urlPrefixD ++ ['/']
      else []
    -- line 437
    let fp2 : List Char := fp1 ++ namespaceD
    -- lines 440-442: ensure a trailing slash before appending the path
    let fp3 : List Char := if fp2.getLast? == some '/' then fp2 else fp2 ++ ['/']
    -- line 445
    let fp4 : List Char := fp3 ++ pathD
    -- lines 449-452: same-origin — prepend a slash and dedup runs of slashes
    if startsHttp fp4 then ⟨fp4⟩ else ⟨collapseSlashes ('/' :: fp4)⟩

/-! ### Requests, handlers and responses -/

/-- An intercepted request, as the dispatcher reads it off the Playwright
`Route`: `request.method()`, `request.url()`, `await request.allHeaders()`,
`request.postData()`. -/
structure InterceptedRequest where
  method : String
  url : String
  headers : List (String × String)
  postData : Option String

/-- The normalized request value handed to a matched mirage handler
(lines 254-260). -/
structure MirageRequest where
  requestBody : String
  requestHeaders : List (String × String)
  url : String
  params : List (String × String)
  queryParams : List (String × String)

/-- `MirageRouteHandlerResponse`: `[status, headers, body]` (lines 43-47).
The dispatcher awaits the handler; suspension is not observable in the
outcome, so the handler is modelled as a plain function. -/
def MirageRouteHandlerResponse : Type :=
  Nat × List (String × String) × String

/-- A handler stored in a route table. The dispatcher distinguishes the
shared passthrough sentinel (`this.playwrightPassthroughHandler`) from a
mirage handler by reference equality (line 250); the sentinel is therefore a
dedicated constructor. -/
inductive Handler where
  | passthroughSentinel
  | fn (h : MirageRequest → MirageRouteHandlerResponse)

/-- One registered route: `{ path: fullPath, handler }` (lines 216, 490). -/
structure RRoute where
  path : String
  handler : Handler

/-- What the dispatcher instructs the interception layer to do: throw the
routing-miss error, `route.continue()` the original request unmodified, or
`route.fulfill({status, headers, body})`. -/
inductive RouteAction where
  | errorThrown (msg : String)
  | continueRequest
  | fulfill (status : Nat) (headers : List (String × String)) (body : String)

/-! ### Route recognition

`RouteRecognizer` is the `route-recognizer` npm dependency; its source is not
part of this repository, so it is modelled from the spec (section 4.2). -/

/-- Split a character list at every occurrence of a separator character. -/
def splitOnCharAux (sep : Char) : List Char → List Char → List (List Char)
  | [], acc => [acc.reverse]
  | c :: rest, acc =>
    if c == sep then acc.reverse :: splitOnCharAux sep rest []
    else splitOnCharAux sep rest (c :: acc)

/-- Split a character list at every occurrence of `sep`. -/
def splitOnChar (sep : Char) (l : List Char) : List (List Char) :=
  splitOnCharAux sep l []

/-- Modelled from the spec: splitting a path into `/`-separated segments, the
segment structure used by the `route-recognizer` dependency. -/
def splitSeg (l : List Char) : List (List Char) :=
  splitOnChar '/' l

/-- Modelled from the spec: query-string parsing done by the
`route-recognizer` dependency — the query component is split on `&`, each
pair at its first `=`; a key without `=` gets the value `"true"`.
Percent-decoding is not modelled (no claim exercises it). -/
def parseQueryPair (l : List Char) : String × String :=
  let k := l.takeWhile (fun c => !(c == '='))
  let rest := l.dropWhile (fun c => !(c == '='))
  match rest with
  | [] => (⟨k⟩, "true")
  | _ :: v => (⟨k⟩, ⟨v⟩)

/-- Split the query component on `&` and parse each pair. -/
def parseQuery (l : List Char) : List (String × String) :=
  if l.isEmpty then [] else (splitOnChar '&' l).map parseQueryPair

/-- Modelled from the spec: segment matching of the `route-recognizer`
dependency. Static segments must match exactly; a `:name` segment captures
one non-empty path segment; a `*name` (glob) segment captures the non-empty
remainder of the path. Returns the extracted path params, or `none` when the
pattern does not match. -/
def matchSegs : List (List Char) → List (List Char) → Option (List (String × String))
  | [], [] => some []
  | p :: ps, s :: ss =>
    if p.head? == some ':' then
      if s.isEmpty then none
      else (matchSegs ps ss).map (fun rest => (⟨p.drop 1⟩, (⟨s⟩ : String)) :: rest)
    else if p.head? == some '*' then
      let rest : String := ⟨List.intercalate ['/'] (s :: ss)⟩
      if rest == "" then none else some [(⟨p.drop 1⟩, rest)]
    else if p == s then matchSegs ps ss
    else none
  | _ :: _, [] => none
  | [], _ :: _ => none

/-- Number of dynamic (`:name` or `*name`) segments of a pattern — the
specificity rank: fewer dynamic segments means more specific. -/
def countDynamic (pattern : List Char) : Nat :=
  ((splitSeg pattern).filter
    (fun seg => seg.head? == some ':' || seg.head? == some '*')).length

/-- One recognized candidate: the route's handler plus extracted params. -/
structure RecognizeResult where
  handler : Handler
  params : List (String × String)

/-- The result object of `RouteRecognizer.recognize`: the ordered candidate
list plus the query params parsed from the recognized path's query
component. -/
structure RecognizeResults where
  results : List RecognizeResult
  queryParams : List (String × String)

/-- Insert a ranked candidate after all candidates of lower-or-equal rank. -/
def insertRanked (x : Nat × RecognizeResult) :
    List (Nat × RecognizeResult) → List (Nat × RecognizeResult)
  | [] => [x]
  | y :: ys => if y.1 ≤ x.1 then y :: insertRanked x ys else x :: y :: ys

/-- Sort candidates by ascending specificity rank. -/
def sortRanked : List (Nat × RecognizeResult) → List (Nat × RecognizeResult)
  | [] => []
  | x :: xs => insertRanked x (sortRanked xs)

/-- Modelled from the spec: `RouteRecognizer.recognize` (section 4.2) — split
off the query component, collect every registered pattern matching the path
component, order candidates by specificity (fewer dynamic segments first) and
return them with the parsed query params; `none` when no pattern matches. -/
def recognizeRoutes (routes : List RRoute) (pathWithQuery : String) :
    Option RecognizeResults :=
  let pathPart := pathWithQuery.data.takeWhile (fun c => !(c == '?'))
  let queryPart := (pathWithQuery.data.dropWhile (fun c => !(c == '?'))).drop 1
  let cands := routes.filterMap (fun r =>
    (matchSegs (splitSeg r.path.data) (splitSeg pathPart)).map
      (fun params => (countDynamic r.path.data, RecognizeResult.mk r.handler params)))
  if cands.isEmpty then none
  else some { results := (sortRanked cands).map Prod.snd,
              queryParams := parseQuery queryPart }


/-! ### The per-verb route tables -/

/-- `this.router` after `create`: one `RouteRecognizer` per verb, keyed by the
seven verb strings installed at lines 187-198 (`Record<string, RouteRecognizer>`). -/
structure Router where
  get : List RRoute := []
  post : List RRoute := []
  put : List RRoute := []
  delete : List RRoute := []
  patch : List RRoute := []
  head : List RRoute := []
  options : List RRoute := []

/-- `this.router[verb]` string-keyed lookup; `none` models the JS `undefined`
for a verb string outside the seven installed keys. -/
def routerLookup (r : Router) (verb : String) : Option (List RRoute) :=
  if verb == "get" then some r.get
  else if verb == "post" then some r.post
  else if verb == "put" then some r.put
  else if verb == "delete" then some r.delete
  else if verb == "patch" then some r.patch
  else if verb == "head" then some r.head
  else if verb == "options" then some r.options
  else none

/-- `this.router[verb].add([{ path, handler }])`: append one route to the
verb's recognizer. Adding under a verb string outside the seven keys would be
a JS `TypeError`; the model leaves the router unchanged there (no claim
exercises it). -/
def routerAdd (r : Router) (verb : String) (e : RRoute) : Router :=
  if verb == "get" then { r with get := r.get ++ [e] }
  else if verb == "post" then { r with post := r.post ++ [e] }
  else if verb == "put" then { r with put := r.put ++ [e] }
  else if verb == "delete" then { r with delete := r.delete ++ [e] }
  else if verb == "patch" then { r with patch := r.patch ++ [e] }
  else if verb == "head" then { r with head := r.head ++ [e] }
  else if verb == "options" then { r with options := r.options ++ [e] }
  else r

/-! ### Engine state and lifecycle -/

/-- Opaque Playwright `Page` handle (external collaborator). -/
structure PWPage where
  pid : Nat

/-- Opaque reference to the mirage server collaborator; only its identity
matters to the claims (its `registerRouteHandler` output is taken as an
argument where needed, and `shouldLog` only gates logging). -/
structure MirageServerRef where
  sid : Nat

/-- A predicate-style passthrough check (`(req) => boolean`). -/
def PassthroughCheck : Type :=
  InterceptedRequest → Bool

/-- The mutable instance state of `PlaywrightConfig` (lines 135-170). The TS
field `namespace` is a Lean keyword, hence `nmspace`; `handlerInstalled`
models whether `page.route(interceptUrlPattern, playwrightHandler)` has been
performed. -/
structure PlaywrightConfigState where
  urlPrefix : Option String := none
  nmspace : Option String := none
  interceptUrlPattern : String := "**"
  page : Option PWPage := none
  mirageServer : Option MirageServerRef := none
  router : Router := {}
  passthroughChecks : List PassthroughCheck := []
  handlerInstalled : Bool := false

/-- The composer configuration read by `_getFullPath` from the instance. -/
def composerOf (st : PlaywrightConfigState) : ComposerConfig :=
  ⟨st.urlPrefix, st.nmspace⟩

/-- JS `a || b || ""` on two optional strings. -/
def jsOrElse (a b : Option String) : String :=
  if truthyStr a then a.getD ""
  else if truthyStr b then b.getD ""
  else ""

/-- The `ServerConfig` argument of `create`/`config`: the fields this engine
reads (`page`, `interceptUrlPattern`, `urlPrefix`, `namespace`). -/
structure MirageConfig where
  page : Option PWPage := none
  interceptUrlPattern : Option String := none
  urlPrefix : Option String := none
  nmspace : Option String := none

/-- Model of `config` (lines 281-338):
`this.urlPrefix = this.urlPrefix || mirageConfig.urlPrefix || ""` and
likewise for `namespace`. Both reads are of the pre-call fields. -/
def config (st : PlaywrightConfigState) (mirageConfig : MirageConfig) :
    PlaywrightConfigState :=
  { st with
    urlPrefix := some (jsOrElse st.urlPrefix mirageConfig.urlPrefix),
    nmspace := some (jsOrElse st.nmspace mirageConfig.nmspace) }

/-- Result of `create`: either the post-setup state, or a thrown error
message together with the instance state at the moment of the throw. -/
inductive CreateResult where
  | ok (st : PlaywrightConfigState)
  | threw (msg : String) (st : PlaywrightConfigState)

/-- Model of `create` (lines 172-278). The assignments happen in source
order: `this.mirageServer`, `this.interceptUrlPattern`, `this.page`, then the
page check throws; on success `config` runs, the seven per-verb recognizers
are created fresh, and the dispatcher is installed via `page.route`. The
per-verb registration closures assigned to `this[verb]`/`mirageServer[verb]`
are modelled separately by `registerVerbRoute`. -/
def create (st : PlaywrightConfigState) (mirageServer : MirageServerRef)
    (cfg : MirageConfig) : CreateResult :=
  let st1 := { st with mirageServer := some mirageServer }
  let st2 := { st1 with
    interceptUrlPattern := cfg.interceptUrlPattern.getD st1.interceptUrlPattern }
  let st3 := { st2 with page := cfg.page }
  match st3.page with
  | none => .threw "A Playwright Page must be passed in the mirageConfig" st3
  | some _ =>
    let st4 := config st3 cfg
    let st5 := { st4 with router := {} }
    .ok { st5 with handlerInstalled := true }

/-- Model of the per-verb registration closure installed by `create`
(lines 199-217), after `extractRouteArguments`: the mirage handler produced
by the external `mirageServer.registerRouteHandler` is taken as an argument;
the route is registered under `_getFullPath(path)` in the verb's table. -/
def registerVerbRoute (st : PlaywrightConfigState) (verb : String)
    (path : String) (handler : Handler) : PlaywrightConfigState :=
  { st with
    router := routerAdd st.router verb ⟨getFullPath (composerOf st) path, handler⟩ }

/-! ### The passthrough registry -/

/-- An argument of `passthrough(...args)`. The TS signature admits strings
and verb arrays; the `pred` constructor models the predicate-style argument
that the untyped JS call site can pass (and that the dead
`typeof path === "function"` branch at lines 484-485 expects). -/
inductive PassthroughArg where
  | str (s : String)
  | verbList (vs : List String)
  | pred (p : PassthroughCheck)

/-- Whether a `passthrough` argument is a string (`typeof arg === "string"`). -/
def PassthroughArg.isStr : PassthroughArg → Bool
  | .str _ => true
  | _ => false

/-- The seven default passthrough verbs (lines 459-467). -/
def defaultPassthroughVerbs : List String :=
  ["get", "post", "put", "delete", "patch", "options", "head"]

/-- Model of `passthrough` (lines 458-495). With no arguments the paths are
`"/**"` and `"/"`; an array as last argument replaces the verb list; every
string argument is collected into `paths`. Because only strings reach
`paths`, the `typeof path === "function"` branch pushing onto
`passthroughChecks` is unreachable — each collected path is composed via
`_getFullPath` and registered against the passthrough sentinel for every
selected verb. -/
def passthrough (st : PlaywrightConfigState) (args : List PassthroughArg) :
    PlaywrightConfigState :=
  let pathsAndVerbs : List String × List String :=
    if args.length = 0 then (["/**", "/"], defaultPassthroughVerbs)
    else match args.getLast? with
      | some (.verbList vs) => ([], vs)
      | _ => ([], defaultPassthroughVerbs)
  let paths : List String := pathsAndVerbs.1 ++ args.filterMap (fun a =>
    match a with
    | .str s => some s
    | _ => none)
  let verbs := pathsAndVerbs.2
  paths.foldl (fun acc p =>
    let fullPath := getFullPath (composerOf acc) p
    verbs.foldl (fun acc2 v =>
      { acc2 with
        router := routerAdd acc2.router v ⟨fullPath, .passthroughSentinel⟩ }) acc) st

/-! ### The dispatcher -/

/-- JS `String.prototype.toLowerCase` for the ASCII verb strings. -/
def toLowerD (l : List Char) : List Char :=
  l.map (fun c => if 'A' ≤ c && c ≤ 'Z' then Char.ofNat (c.toNat + 32) else c)

/-- Scan to the first `"://"` and return what follows, if any. -/
def afterSchemeSep : List Char → Option (List Char)
  | ':' :: '/' :: '/' :: rest => some rest
  | _ :: rest => afterSchemeSep rest
  | [] => none

/-- Modelled from the spec: the browser `URL` parser the dispatcher relies on
(`new URL(request.url()).pathname`), which is not part of this repository —
the path component of an absolute URL: everything from the first `/` after
the scheme-and-authority part, up to but excluding any query (`?`) or
fragment (`#`); `/` when the URL has no path. -/
def urlPathname (u : String) : String :=
  let rest := (afterSchemeSep u.data).getD u.data
  let path := (rest.dropWhile (fun c => !(c == '/'))).takeWhile
    (fun c => !(c == '?') && !(c == '#'))
  if path.isEmpty then "/" else ⟨path⟩

/-- The recognition step of the dispatcher (line 239):
`this.router[method.toLowerCase()]?.recognize(url.pathname)`. -/
def recognizeFor (st : PlaywrightConfigState) (req : InterceptedRequest) :
    Option RecognizeResults :=
  (routerLookup st.router ⟨toLowerD req.method.data⟩).bind
    (fun routes => recognizeRoutes routes (urlPathname req.url))

/-- Model of `playwrightHandler` (lines 226-275): recognize the lower-cased
verb and URL pathname; no match throws the routing-miss error; a first
candidate equal to the passthrough sentinel runs
`playwrightPassthroughHandler` (lines 146-159), which logs and calls
`route.continue()`; otherwise the normalized request is built and the mirage
handler's `[status, headers, body]` is passed to `route.fulfill`. -/
def playwrightHandler (st : PlaywrightConfigState) (req : InterceptedRequest) :
    RouteAction :=
  let pathname := urlPathname req.url
  match recognizeFor st req with
  | none => .errorThrown ("No Mirage route registered for " ++ pathname)
  | some res =>
    match res.results.head? with
    | none => .errorThrown ("No Mirage route registered for " ++ pathname)
    | some m =>
      match m.handler with
      | .passthroughSentinel => .continueRequest
      | .fn h =>
        let mirageRequest : MirageRequest :=
          { requestBody := req.postData.getD ""
            requestHeaders := req.headers
            url := pathname
            params := m.params
            queryParams := res.queryParams }
        match h mirageRequest with
        | (status, headers, body) => .fulfill status headers body

/-! ### Facts about `collapseSlashes` -/

/-- No two adjacent slashes anywhere in the list. -/
def noDoubleSlash : List Char → Bool
  | [] => true
  | [_] => true
  | c1 :: c2 :: rest => !(c1 == '/' && c2 == '/') && noDoubleSlash (c2 :: rest)

theorem collapseSlashes_head (c : Char) (r : List Char) :
    ∃ t, collapseSlashes (c :: r) = c :: t := by
  induction r generalizing c with
  | nil => exact ⟨[], rfl⟩
  | cons c2 r2 ih =>
    by_cases h : (c == '/' && c2 == '/') = true
    · obtain ⟨hc, hc2⟩ := Bool.and_eq_true_iff.mp h
      obtain ⟨t, ht⟩ := ih c2
      refine ⟨t, ?_⟩
      rw [show collapseSlashes (c :: c2 :: r2) = collapseSlashes (c2 :: r2) by
        simp [collapseSlashes, h]]
      rw [ht, beq_iff_eq.mp hc, beq_iff_eq.mp hc2]
    · exact ⟨collapseSlashes (c2 :: r2), by simp [collapseSlashes, h]⟩

theorem noDoubleSlash_collapseSlashes (l : List Char) :
    noDoubleSlash (collapseSlashes l) = true := by
  induction l using collapseSlashes.induct with
  | case1 => rfl
  | case2 c => rfl
  | case3 c1 c2 rest h ih =>
    rw [show collapseSlashes (c1 :: c2 :: rest) = collapseSlashes (c2 :: rest) by
      simp [collapseSlashes, h]]
    exact ih
  | case4 c1 c2 rest h ih =>
    rw [show collapseSlashes (c1 :: c2 :: rest) = c1 :: collapseSlashes (c2 :: rest) by
      simp [collapseSlashes, h]]
    obtain ⟨t, ht⟩ := collapseSlashes_head c2 rest
    rw [ht]
    have hnd : noDoubleSlash (c2 :: t) = true := ht ▸ ih
    have hx : (c1 == '/' && c2 == '/') = false := Bool.eq_false_iff.mpr h
    simp [noDoubleSlash, hx, hnd]

theorem collapseSlashes_of_noDoubleSlash (l : List Char)
    (h : noDoubleSlash l = true) : collapseSlashes l = l := by
  induction l using collapseSlashes.induct with
  | case1 => rfl
  | case2 c => rfl
  | case3 c1 c2 rest hc ih =>
    exfalso
    rw [show noDoubleSlash (c1 :: c2 :: rest)
        = (!(c1 == '/' && c2 == '/') && noDoubleSlash (c2 :: rest)) from rfl, hc] at h
    simp at h
  | case4 c1 c2 rest hc ih =>
    rw [show noDoubleSlash (c1 :: c2 :: rest)
        = (!(c1 == '/' && c2 == '/') && noDoubleSlash (c2 :: rest)) from rfl,
      Bool.and_eq_true_iff] at h
    rw [show collapseSlashes (c1 :: c2 :: rest) = c1 :: collapseSlashes (c2 :: rest) by
      simp [collapseSlashes, hc]]
    rw [ih h.2]

theorem collapseSlashes_idem (l : List Char) :
    collapseSlashes (collapseSlashes l) = collapseSlashes l :=
  collapseSlashes_of_noDoubleSlash _ (noDoubleSlash_collapseSlashes l)

theorem collapseSlashes_cons_slash (l : List Char) :
    collapseSlashes ('/' :: l) = '/' :: collapseSlashes (l.dropWhile (· == '/')) := by
  induction l with
  | nil => rfl
  | cons c r ih =>
    by_cases h : (c == '/') = true
    · rw [beq_iff_eq.mp h]
      rw [show collapseSlashes ('/' :: '/' :: r) = collapseSlashes ('/' :: r) from rfl]
      rw [show List.dropWhile (· == '/') ('/' :: r) = List.dropWhile (· == '/') r by
        simp [List.dropWhile]]
      exact ih
    · have hc : (c == '/') = false := Bool.eq_false_iff.mpr h
      rw [show collapseSlashes ('/' :: c :: r) = '/' :: collapseSlashes (c :: r) by
        simp [collapseSlashes, hc]]
      rw [show List.dropWhile (· == '/') (c :: r) = c :: r by
        simp [List.dropWhile, hc]]

/-! ### Facts about `startsHttp` and the empty-configuration composer -/

theorem startsHttp_cons_slash (l : List Char) : startsHttp ('/' :: l) = false := by
  simp [startsHttp, httpChars, httpsChars, List.isPrefixOf]

theorem jsStripLead_of_startsHttp (l : List Char) (h : startsHttp l = true) :
    jsStripLead l = l := by
  match l with
  | [] => rfl
  | c :: rest =>
    have hc : c = 'h' := by
      simp only [startsHttp, httpChars, httpsChars, List.isPrefixOf, Bool.or_eq_true,
        Bool.and_eq_true_iff] at h
      rcases h with ⟨h1, _⟩ | ⟨h1, _⟩ <;> exact (beq_iff_eq.mp h1).symm
    simp [jsStripLead, hc]

theorem startsHttp_of_noDoubleSlash (l : List Char)
    (h : noDoubleSlash l = true) : startsHttp l = false := by
  by_contra hx
  have hs : startsHttp l = true := by
    cases he : startsHttp l with
    | false => exact absurd he hx
    | true => rfl
  simp only [startsHttp, httpChars, httpsChars, Bool.or_eq_true] at hs
  rcases hs with hp | hp
  · -- "http://" prefix: characters 5 and 6 are both slashes
    obtain ⟨t, ht⟩ := List.isPrefixOf_iff_prefix.mp hp
    subst ht
    simp [noDoubleSlash] at h
  · -- "https://" prefix: characters 6 and 7 are both slashes
    obtain ⟨t, ht⟩ := List.isPrefixOf_iff_prefix.mp hp
    subst ht
    simp [noDoubleSlash] at h

/-- With both composer fields falsy, `_getFullPath` reduces to: strip one
leading slash; a fully-qualified path is returned as is; otherwise prepend
two slashes and collapse runs of slashes. -/
theorem getFullPath_untruthy (cfg : ComposerConfig)
    (hup : truthyStr cfg.urlPrefix = false) (hns : truthyStr cfg.nmspace = false)
    (p : String) :
    getFullPath cfg p =
      if startsHttp (jsStripLead p.data) then ⟨jsStripLead p.data⟩
      else ⟨collapseSlashes ('/' :: '/' :: jsStripLead p.data)⟩ := by
  simp [getFullPath, hup, hns, startsHttp_cons_slash]

theorem getFullPath_of_startsHttp (cfg : ComposerConfig) (q : String)
    (h : startsHttp q.data = true) : getFullPath cfg q = q := by
  rw [getFullPath]
  rw [jsStripLead_of_startsHttp q.data h, if_pos h]

theorem dropWhile_head_false {α : Type} {p : α → Bool} (l : List α) (c : α)
    (t : List α) (h : l.dropWhile p = c :: t) : p c = false := by
  induction l with
  | nil => simp [List.dropWhile] at h
  | cons a r ih =>
    rw [List.dropWhile_cons] at h
    by_cases hp : p a = true
    · rw [if_pos hp] at h
      exact ih h
    · rw [if_neg hp] at h
      obtain ⟨h1, -⟩ := List.cons.inj h
      subst h1
      exact Bool.eq_false_iff.mpr hp

/-- On a falsy composer configuration, `_getFullPath` is idempotent. -/
theorem getFullPath_untruthy_idem (cfg : ComposerConfig)
    (hup : truthyStr cfg.urlPrefix = false) (hns : truthyStr cfg.nmspace = false)
    (p : String) :
    getFullPath cfg (getFullPath cfg p) = getFullPath cfg p := by
  rw [getFullPath_untruthy cfg hup hns p]
  by_cases hh : startsHttp (jsStripLead p.data) = true
  · rw [if_pos hh]
    exact getFullPath_of_startsHttp cfg ⟨jsStripLead p.data⟩ hh
  · rw [if_neg hh]
    have hcc : collapseSlashes ('/' :: '/' :: jsStripLead p.data)
        = '/' :: collapseSlashes ((jsStripLead p.data).dropWhile (· == '/')) := by
      rw [show collapseSlashes ('/' :: '/' :: jsStripLead p.data)
          = collapseSlashes ('/' :: jsStripLead p.data) from rfl]
      exact collapseSlashes_cons_slash (jsStripLead p.data)
    rw [getFullPath_untruthy cfg hup hns ⟨collapseSlashes ('/' :: '/' :: jsStripLead p.data)⟩]
    rw [show (String.mk (collapseSlashes ('/' :: '/' :: jsStripLead p.data))).data
        = collapseSlashes ('/' :: '/' :: jsStripLead p.data) from rfl]
    rw [hcc]
    rw [show jsStripLead ('/' :: collapseSlashes ((jsStripLead p.data).dropWhile (· == '/')))
        = collapseSlashes ((jsStripLead p.data).dropWhile (· == '/')) by simp [jsStripLead]]
    have hhttp : startsHttp (collapseSlashes ((jsStripLead p.data).dropWhile (· == '/'))) = false :=
      startsHttp_of_noDoubleSlash _ (noDoubleSlash_collapseSlashes _)
    rw [if_neg (by simp [hhttp])]
    rw [show collapseSlashes
          ('/' :: '/' :: collapseSlashes ((jsStripLead p.data).dropWhile (· == '/')))
        = collapseSlashes ('/' :: collapseSlashes ((jsStripLead p.data).dropWhile (· == '/')))
        from rfl]
    cases hd : (jsStripLead p.data).dropWhile (· == '/') with
    | nil => rfl
    | cons c dr =>
      obtain ⟨t, ht⟩ := collapseSlashes_head c dr
      have hcfalse : (c == '/') = false := dropWhile_head_false _ c dr hd
      rw [ht]
      rw [show collapseSlashes ('/' :: c :: t) = '/' :: collapseSlashes (c :: t) by
        simp [collapseSlashes, hcfalse]]
      rw [← ht, collapseSlashes_idem, ht]

/-! ### Concrete fixtures used by witnesses and counterexamples -/

/-- Render query params for the echoing test handler body. -/
def renderPairs : List (String × String) → String
  | [] => ""
  | (k, v) :: rest => k ++ "=" ++ v ++ ";" ++ renderPairs rest

/-- A mirage handler echoing the params it receives into the response headers
and the query params it receives into the response body. -/
def c1Handler : Handler :=
  .fn (fun mr => (200, mr.params, renderPairs mr.queryParams))

/-- State with `GET /movies/:id` registered (empty composer config). -/
def c1State : PlaywrightConfigState :=
  registerVerbRoute {} "get" "/movies/:id" c1Handler

/-- A `GET /movies/42?sort=asc` intercepted request. -/
def c1Request : InterceptedRequest :=
  ⟨"GET", "http://localhost/movies/42?sort=asc", [], none⟩

def c2Request : InterceptedRequest :=
  ⟨"GET", "http://localhost/nope", [], none⟩

/-- State with `/ping` registered as a passthrough for all default verbs. -/
def c3State : PlaywrightConfigState :=
  passthrough {} [PassthroughArg.str "/ping"]

def c3Request : InterceptedRequest :=
  ⟨"GET", "http://localhost/ping", [], none⟩

/-- The recognition result produced for `c3Request` against `c3State`. -/
def c3Res : RecognizeResults :=
  ⟨[⟨Handler.passthroughSentinel, []⟩], []⟩

def c9Cfg : MirageConfig :=
  { page := none, interceptUrlPattern := some "/api/**" }

/-! ### The claims -/

/-- Claim C1: with `/movies/:id` registered under GET, dispatching a GET to
`/movies/42?sort=asc` should invoke the handler with `params = {id: "42"}`
and `queryParams = {sort: "asc"}`. The params half holds, but the dispatcher
recognizes `url.pathname`, which excludes the query component, so the handler
always receives `queryParams = {}` (first conjunct: the echoed body is
empty); the recognizer itself would extract `{sort: "asc"}` had it been given
the path together with its query (second conjunct). -/
theorem c1_query_params_dropped :
    playwrightHandler c1State c1Request = RouteAction.fulfill 200 [("id", "42")] ""
  ∧ (recognizeRoutes c1State.router.get "/movies/42?sort=asc").map
      (fun r => r.queryParams) = some [("sort", "asc")] :=
  ⟨rfl, rfl⟩

/-- Claim C2: whenever recognition yields no candidate for the lower-cased
verb and URL pathname, the dispatcher throws the routing-miss error — the
request is neither fulfilled nor forwarded. -/
theorem c2_routing_miss_raises (st : PlaywrightConfigState)
    (req : InterceptedRequest) (h : recognizeFor st req = none) :
    playwrightHandler st req
      = RouteAction.errorThrown ("No Mirage route registered for " ++ urlPathname req.url) := by
  simp only [playwrightHandler, h]

theorem c2_routing_miss_raises_witness :
    playwrightHandler {} c2Request
      = RouteAction.errorThrown "No Mirage route registered for /nope" :=
  c2_routing_miss_raises {} c2Request rfl

/-- Claim C3: whenever the first recognized candidate's handler is the
passthrough sentinel, the dispatcher forwards the original request unmodified
(`route.continue`) and synthesizes nothing (`route.fulfill` is never
reached). -/
theorem c3_passthrough_first_candidate_forwards (st : PlaywrightConfigState)
    (req : InterceptedRequest) (res : RecognizeResults) (m : RecognizeResult)
    (h1 : recognizeFor st req = some res) (h2 : res.results.head? = some m)
    (h3 : m.handler = Handler.passthroughSentinel) :
    playwrightHandler st req = RouteAction.continueRequest := by
  simp only [playwrightHandler, h1, h2, h3]

theorem c3_passthrough_first_candidate_forwards_witness :
    playwrightHandler c3State c3Request = RouteAction.continueRequest :=
  c3_passthrough_first_candidate_forwards c3State c3Request c3Res
    ⟨Handler.passthroughSentinel, []⟩ rfl rfl rfl

/-- Claim C4: the four-entry correctness table of `_getFullPath`. -/
theorem c4_composer_correctness_table :
    getFullPath ⟨some "", some ""⟩ "a" = "/a"
  ∧ getFullPath ⟨some "http://h:1", some "/api/"⟩ "a" = "http://h:1/api/a"
  ∧ getFullPath ⟨some "", some "/api"⟩ "a" = "/api/a"
  ∧ getFullPath ⟨some "", some "api/"⟩ "a" = "/api/a" :=
  ⟨by decide, by decide, by decide, by decide⟩

/-- Claim C5, counterexample: with `namespace = "/api"`, composing the
already-composed `"/api/a"` again yields `"/api/api/a"`, so `_getFullPath`
is not idempotent for every configuration. -/
theorem c5_idempotence_counterexample :
    getFullPath ⟨some "", some "/api"⟩ (getFullPath ⟨some "", some "/api"⟩ "a")
      ≠ getFullPath ⟨some "", some "/api"⟩ "a" := by
  decide

/-- Claim C5, amended: `_getFullPath` is idempotent when both composer fields
are empty or unset, and whenever the composed result is a fully-qualified
http(s) URL (which re-composition returns unchanged); a non-empty same-origin
prefix or namespace is prepended again on re-composition. -/
theorem c5_idempotence_amended (cfg : ComposerConfig) (p : String)
    (h : (truthyStr cfg.urlPrefix = false ∧ truthyStr cfg.nmspace = false)
       ∨ startsHttp (getFullPath cfg p).data = true) :
    getFullPath cfg (getFullPath cfg p) = getFullPath cfg p := by
  rcases h with ⟨hup, hns⟩ | hfq
  · exact getFullPath_untruthy_idem cfg hup hns p
  · exact getFullPath_of_startsHttp cfg _ hfq

theorem c5_idempotence_amended_witness :
    getFullPath ⟨some "", some ""⟩ (getFullPath ⟨some "", some ""⟩ "a")
      = getFullPath ⟨some "", some ""⟩ "a" :=
  c5_idempotence_amended ⟨some "", some ""⟩ "a" (Or.inl ⟨rfl, rfl⟩)

/-- Claim C6: a predicate-style argument to `passthrough` is supposed to be
appended to `passthroughChecks`, but the string filter at lines 477-481 keeps
every non-string argument out of `paths`, so the pushing branch at lines
484-485 is unreachable: the whole call leaves the state — `passthroughChecks`
and every route table — unchanged. -/
theorem c6_predicate_passthrough_dropped (st : PlaywrightConfigState)
    (p : PassthroughCheck) :
    passthrough st [PassthroughArg.pred p] = st :=
  rfl

/-- Claim C7: `passthrough()` with no arguments appends exactly the composed
`"/**"` and `"/"` against the passthrough sentinel to the route tables of all
seven verbs, preserving every previously registered entry, and leaves
`passthroughChecks` alone. -/
theorem c7_passthrough_no_args_registers_defaults (st : PlaywrightConfigState) :
    ((passthrough st []).router.get
        = st.router.get
            ++ [⟨getFullPath (composerOf st) "/**", Handler.passthroughSentinel⟩,
                ⟨getFullPath (composerOf st) "/", Handler.passthroughSentinel⟩]
      ∧ (passthrough st []).router.post
          = st.router.post
              ++ [⟨getFullPath (composerOf st) "/**", Handler.passthroughSentinel⟩,
                  ⟨getFullPath (composerOf st) "/", Handler.passthroughSentinel⟩]
      ∧ (passthrough st []).router.put
          = st.router.put
              ++ [⟨getFullPath (composerOf st) "/**", Handler.passthroughSentinel⟩,
                  ⟨getFullPath (composerOf st) "/", Handler.passthroughSentinel⟩]
      ∧ (passthrough st []).router.delete
          = st.router.delete
              ++ [⟨getFullPath (composerOf st) "/**", Handler.passthroughSentinel⟩,
                  ⟨getFullPath (composerOf st) "/", Handler.passthroughSentinel⟩]
      ∧ (passthrough st []).router.patch
          = st.router.patch
              ++ [⟨getFullPath (composerOf st) "/**", Handler.passthroughSentinel⟩,
                  ⟨getFullPath (composerOf st) "/", Handler.passthroughSentinel⟩]
      ∧ (passthrough st []).router.head
          = st.router.head
              ++ [⟨getFullPath (composerOf st) "/**", Handler.passthroughSentinel⟩,
                  ⟨getFullPath (composerOf st) "/", Handler.passthroughSentinel⟩]
      ∧ (passthrough st []).router.options
          = st.router.options
              ++ [⟨getFullPath (composerOf st) "/**", Handler.passthroughSentinel⟩,
                  ⟨getFullPath (composerOf st) "/", Handler.passthroughSentinel⟩])
  ∧ (passthrough st []).passthroughChecks = st.passthroughChecks := by
  refine ⟨⟨?_, ?_, ?_, ?_, ?_, ?_, ?_⟩, rfl⟩ <;>
    exact List.append_assoc _ _ _

/-- Claim C8: `config` only ever fills composer fields that are still falsy:
a truthy `urlPrefix`/`namespace` is left unchanged, and a falsy one receives
`mirageConfig`'s value (or `""`). -/
theorem c8_config_effectively_set_once (st : PlaywrightConfigState)
    (mc : MirageConfig) :
    (truthyStr st.urlPrefix = true → (config st mc).urlPrefix = st.urlPrefix)
  ∧ (truthyStr st.nmspace = true → (config st mc).nmspace = st.nmspace)
  ∧ (truthyStr st.urlPrefix = false
      → (config st mc).urlPrefix = some (jsOrElse none mc.urlPrefix))
  ∧ (truthyStr st.nmspace = false
      → (config st mc).nmspace = some (jsOrElse none mc.nmspace)) := by
  refine ⟨?_, ?_, ?_, ?_⟩
  · intro h
    show some (jsOrElse st.urlPrefix mc.urlPrefix) = st.urlPrefix
    unfold jsOrElse
    rw [if_pos h]
    cases hu : st.urlPrefix with
    | none => rw [hu] at h; exact absurd h (by simp [truthyStr])
    | some s => rfl
  · intro h
    show some (jsOrElse st.nmspace mc.nmspace) = st.nmspace
    unfold jsOrElse
    rw [if_pos h]
    cases hu : st.nmspace with
    | none => rw [hu] at h; exact absurd h (by simp [truthyStr])
    | some s => rfl
  · intro h
    show some (jsOrElse st.urlPrefix mc.urlPrefix) = some (jsOrElse none mc.urlPrefix)
    unfold jsOrElse
    rw [if_neg (by simp [h])]
    rfl
  · intro h
    show some (jsOrElse st.nmspace mc.nmspace) = some (jsOrElse none mc.nmspace)
    unfold jsOrElse
    rw [if_neg (by simp [h])]
    rfl

theorem c8_config_effectively_set_once_witness :
    (config { urlPrefix := some "http://h:1" }
        { nmspace := some "/api" }).urlPrefix = some "http://h:1"
  ∧ (config { urlPrefix := some "http://h:1" }
        { nmspace := some "/api" }).nmspace = some "/api" :=
  ⟨((c8_config_effectively_set_once { urlPrefix := some "http://h:1" }
      { nmspace := some "/api" }).1 rfl).trans rfl,
   ((c8_config_effectively_set_once { urlPrefix := some "http://h:1" }
      { nmspace := some "/api" }).2.2.2 rfl).trans rfl⟩

/-- Claim C9: when the config carries no page handle, `create` throws the
setup error — but only after `this.mirageServer` and
`this.interceptUrlPattern` have already been reassigned from the call's
arguments: the instance state at the throw is not the pre-call state. -/
theorem c9_create_not_atomic_on_missing_page (st : PlaywrightConfigState)
    (ms : MirageServerRef) (cfg : MirageConfig) (h : cfg.page = none) :
    create st ms cfg
      = CreateResult.threw "A Playwright Page must be passed in the mirageConfig"
          { st with mirageServer := some ms,
                    interceptUrlPattern := cfg.interceptUrlPattern.getD st.interceptUrlPattern,
                    page := none } := by
  simp only [create, h]

theorem c9_create_not_atomic_on_missing_page_witness :
    create {} ⟨7⟩ c9Cfg
      = CreateResult.threw "A Playwright Page must be passed in the mirageConfig"
          { mirageServer := some ⟨7⟩, interceptUrlPattern := "/api/**", page := none } :=
  c9_create_not_atomic_on_missing_page {} ⟨7⟩ c9Cfg rfl

/-- Claim C10: `passthrough` called with at least one argument but no string
argument (for example only an explicit verb array) registers nothing and
leaves the state — route tables and `passthroughChecks` — unchanged: the
default paths apply only to the entirely empty argument list. -/
theorem c10_passthrough_nonstring_args_register_nothing
    (st : PlaywrightConfigState) (args : List PassthroughArg)
    (h1 : args ≠ []) (h2 : ∀ a ∈ args, PassthroughArg.isStr a = false) :
    passthrough st args = st := by
  have hlen : ¬(args.length = 0) := fun hc => h1 (List.length_eq_zero.mp hc)
  have hfm : args.filterMap (fun a =>
      match a with
      | PassthroughArg.str s => some s
      | _ => none) = [] := by
    rw [List.filterMap_eq_nil_iff]
    intro a ha
    cases a with
    | str s => exact absurd (h2 _ ha) (by simp [PassthroughArg.isStr])
    | verbList vs => rfl
    | pred p => rfl
  unfold passthrough
  rw [if_neg hlen]
  cases hl : args.getLast? with
  | none => simp [hfm]
  | some a => cases a <;> simp [hfm]

theorem c10_passthrough_nonstring_args_register_nothing_witness :
    passthrough {} [PassthroughArg.verbList ["get"]] = {} :=
  c10_passthrough_nonstring_args_register_nothing {} [PassthroughArg.verbList ["get"]]
    (by simp) (by intro a ha; simp at ha; subst ha; rfl)
